import Mathlib

/-!
Shallow embedding of src/plugin.py (MusubiTrainingPlugin, the install /
activation manager of the wan2gp-training plugin).

Modelling conventions:
- The filesystem is abstracted by boolean oracles (String to Bool) for
  os.path.exists and os.path.isdir, passed as parameters.
- The persisted JSON config is modelled as an assoc list of string keys to
  string values (the only values the plugin ever writes are strings); the
  config file on disk is FileContent: absent, invalid (unreadable or
  unparsable), or a parsed document.
- Subprocess invocations (git clone, pip, git pull) are modelled by their
  outcome, passed in as an Except value: error carries the exception text
  for a raised exception or, for check_call, a non-zero exit.
- Process-global state touched by activation (os.chdir, sys.path) is a
  ProcState record threaded explicitly.
- Generator yields of the install callback are collected into a message list.
-/

def MUSUBI_REPO_URL : String := "https://github.com/Tophness/musubi-tuner.git"

def DEFAULT_INSTALL_DIR_NAME : String := "musubi-tuner"

/-- os.path.join restricted to the relative, non-empty second components that
this plugin passes (so join a b = a ++ sep ++ b, and join of an empty first
component is the second component). -/
def joinPath (a b : String) : String := if a = "" then b else a ++ "/" ++ b

/-- The sentinel file path p/src/musubi_tuner/gui/gui.py whose existence is the
validity criterion used in load_config and create_ui. -/
def sentinelPath (p : String) : String :=
  joinPath (joinPath (joinPath (joinPath p "src") "musubi_tuner") "gui") "gui.py"

/-- The on-disk state of the config.json file. -/
inductive FileContent where
  | absent
  | invalid
  | doc (d : List (String × String))
deriving DecidableEq

/-- Python dict lookup on the assoc-list model (dict.get k). -/
def getVal : List (String × String) → String → Option String
  | [], _ => none
  | (k, v) :: rest, key => if k = key then some v else getVal rest key

/-- Python dict assignment d[key] = v on the assoc-list model: overwrite the
existing entry in place, otherwise append. -/
def setKey : List (String × String) → String → String → List (String × String)
  | [], key, v => [(key, v)]
  | (k, w) :: rest, key, v =>
      if k = key then (key, v) :: rest else (k, w) :: setKey rest key v

/-- The in-memory config dict together with the persisted config.json file. -/
structure ConfigState where
  mem : List (String × String)
  file : FileContent
deriving DecidableEq

/-- MusubiTrainingPlugin.load_config (plugin.py lines 24-34).
If the config file exists and parses, the parsed document is returned as is.
Otherwise (absent file, or any exception while opening or parsing, caught by
the bare except) it falls back to probing the default local install directory
pluginDir/musubi-tuner for the sentinel file. Total by construction: it never
raises, so plugin construction always succeeds. -/
def load_config (file : FileContent) (fsExists : String → Bool)
    (pluginDir : String) : List (String × String) :=
  match file with
  | FileContent.doc d => d
  | _ =>
    let local_install := joinPath pluginDir DEFAULT_INSTALL_DIR_NAME
    if fsExists (sentinelPath local_install) then
      [("install_path", local_install)]
    else
      [("install_path", "")]

/-- MusubiTrainingPlugin.save_config (plugin.py lines 36-39): set
config[install_path] = path in the in-memory dict, then dump the whole dict
to the config file. -/
def save_config (c : ConfigState) (path : String) : ConfigState :=
  let m := setKey c.mem "install_path" path
  { mem := m, file := FileContent.doc m }

/-- Observable effects of the GPU lock adapter methods: whether gr.Warning was
emitted, whether acquire_GPU_ressources was called, whether
release_GPU_ressources was called. The host lock API itself is an external
collaborator; any_GPU_process_running is abstracted by the boolean input. -/
structure GpuEffects where
  warned : Bool
  acquired : Bool
  released : Bool
deriving DecidableEq

/-- MusubiTrainingPlugin.acquire_gpu (plugin.py lines 51-56): if another GPU
process is running, warn and return without acquiring; otherwise acquire. -/
def acquire_gpu (anyRunning : Bool) : GpuEffects :=
  if anyRunning then
    { warned := true, acquired := false, released := false }
  else
    { warned := false, acquired := true, released := false }

/-- MusubiTrainingPlugin.release_gpu (plugin.py lines 58-59). -/
def release_gpu : GpuEffects :=
  { warned := false, acquired := false, released := true }

/-- MusubiTrainingPlugin.on_tab_select (plugin.py lines 234-235). -/
def on_tab_select (anyRunning : Bool) : GpuEffects := acquire_gpu anyRunning

/-- MusubiTrainingPlugin.on_tab_deselect (plugin.py lines 237-238). -/
def on_tab_deselect : GpuEffects := release_gpu

/-- Exceptions that can escape the body of render_musubi_ui: an ImportError
from importing musubi_tuner.gui.gui, or any other exception (e.g. raised by
construct_ui). -/
inductive PyError where
  | importError (msg : String)
  | otherError (msg : String)
deriving DecidableEq

/-- The process-global state mutated by activation: current working directory
and the module search path sys.path. -/
structure ProcState where
  cwd : String
  sysPath : List String
deriving DecidableEq

/-- MusubiTrainingPlugin.render_musubi_ui (plugin.py lines 154-232).
Inserts musubi_path/src at the front of sys.path unless already present, saves
the original cwd, chdirs to musubi_path, then imports the gui module (failure
abstracted by importErr) and calls construct_ui (failure abstracted by
constructErr). The except ImportError clause re-raises, so every error in the
body propagates to the caller as the Except.error component; the finally
clause restores the original cwd on every path. -/
def render_musubi_ui (ps : ProcState) (musubi_path : String)
    (importErr : Option String) (constructErr : Option String) :
    Except PyError Unit × ProcState :=
  let src_path := joinPath musubi_path "src"
  let ps0 : ProcState :=
    if src_path ∈ ps.sysPath then ps
    else { ps with sysPath := src_path :: ps.sysPath }
  let original_cwd := ps0.cwd
  let ps1 : ProcState := { ps0 with cwd := musubi_path }
  let result : Except PyError Unit :=
    match importErr with
    | some m => Except.error (PyError.importError m)
    | none =>
      match constructErr with
      | some m => Except.error (PyError.otherError m)
      | none => Except.ok ()
  (result, { ps1 with cwd := original_cwd })

/-- Which interface create_ui ends up rendering: the installer form, the
delegated musubi UI, or (when render_musubi_ui raised) the diagnostic error
panel followed by the installer form. -/
inductive RenderedUI where
  | installer
  | musubi
  | diagnosticAndInstaller (e : PyError)
deriving DecidableEq

/-- MusubiTrainingPlugin.create_ui (plugin.py lines 61-83): compute is_ready
from config.get(install_path, empty), os.path.isdir and the sentinel file;
if ready, attempt render_musubi_ui, catching any exception into a diagnostic
panel plus the installer form; otherwise render the installer form. -/
def create_ui (cfg : ConfigState) (isDir : String → Bool) (fsExists : String → Bool)
    (ps : ProcState) (importErr : Option String) (constructErr : Option String) :
    RenderedUI × ProcState :=
  let current_path := (getVal cfg.mem "install_path").getD ""
  let is_ready :=
    (current_path != "") && isDir current_path && fsExists (sentinelPath current_path)
  if is_ready then
    let r := render_musubi_ui ps current_path importErr constructErr
    match r.1 with
    | Except.ok _ => (RenderedUI.musubi, r.2)
    | Except.error e => (RenderedUI.diagnosticAndInstaller e, r.2)
  else
    (RenderedUI.installer, ps)

/-- Environment of one install_musubi invocation: the filesystem oracle and
the outcomes of the two subprocess.check_call invocations (git clone, pip
install): ok for exit code zero, error with the exception text otherwise. -/
structure InstallEnv where
  fsExists : String → Bool
  cloneResult : Except String Unit
  pipResult : Except String Unit

/-- Result of one install_musubi invocation: the yielded status messages in
order, whether each subprocess was launched, and the resulting config state. -/
structure InstallOutcome where
  messages : List String
  cloneInvoked : Bool
  pipInvoked : Bool
  config : ConfigState

def installSuccessMsg : String :=
  "SUCCESS: Installation Complete!\n\nIMPORTANT: Please restart WanGP to load the training interface."

def pipStepMsg : String :=
  "Installing dependencies via \x27pip install -e .\x27 (this may take a minute)..."

/-- The tail of install_musubi after the clone decision (plugin.py lines
123-136): optional pip editable install when pyproject.toml exists, then
save_config and the success message. -/
def installDeps (cfg : ConfigState) (tp : String) (env : InstallEnv)
    (cloned : Bool) (msgs : List String) : InstallOutcome :=
  if env.fsExists (joinPath tp "pyproject.toml") then
    match env.pipResult with
    | Except.error e =>
      { messages := msgs ++ [pipStepMsg, "Error installing dependencies: " ++ e],
        cloneInvoked := cloned, pipInvoked := true, config := cfg }
    | Except.ok _ =>
      { messages := msgs ++ [pipStepMsg, installSuccessMsg],
        cloneInvoked := cloned, pipInvoked := true, config := save_config cfg tp }
  else
    { messages := msgs ++ [installSuccessMsg],
      cloneInvoked := cloned, pipInvoked := false, config := save_config cfg tp }

/-- install_musubi (plugin.py lines 106-136): reject an empty path; abspath
the target; clone unless target/.git exists, aborting on clone failure; then
the dependency step, save_config and success message via installDeps. -/
def install_musubi (cfg : ConfigState) (target_path : String)
    (abspath : String → String) (env : InstallEnv) : InstallOutcome :=
  if target_path = "" then
    { messages := ["Please specify a path."],
      cloneInvoked := false, pipInvoked := false, config := cfg }
  else
    let tp := abspath target_path
    if env.fsExists (joinPath tp ".git") = false then
      let cloneMsg := "Cloning " ++ MUSUBI_REPO_URL ++ " into " ++ tp ++ "..."
      match env.cloneResult with
      | Except.error e =>
        { messages := [cloneMsg, "Error cloning git repo: " ++ e],
          cloneInvoked := true, pipInvoked := false, config := cfg }
      | Except.ok _ => installDeps cfg tp env true [cloneMsg]
    else
      installDeps cfg tp env false
        ["Git repository already exists at " ++ tp ++ ". Proceeding to install..."]

/-- Outcome of subprocess.run: exit code plus captured stdout and stderr. -/
structure ProcResult where
  returncode : Int
  stdout : String
  stderr : String
deriving DecidableEq

/-- Result of one do_git_update invocation: the log lines accumulated in the
Python list named log (the callback returns their newline join), whether the
pip subprocess was launched, and the resulting config state (do_git_update
never calls save_config, so it is returned unchanged). -/
structure GitUpdateOutcome where
  log : List String
  pipInvoked : Bool
  config : ConfigState

def updateFinishedMsg : String :=
  "\nUpdate process finished. Please restart WanGP if code changes require it."

/-- do_git_update (plugin.py lines 180-219): run git pull capturing output
(pull = error means subprocess.run itself raised, caught by the outer except
as Critical Error); log stdout and, when non-empty, stderr; on non-zero exit
log Git pull failed and stop; else run pip editable install when
pyproject.toml exists (pyprojectExists), logging its output or exception. -/
def do_git_update (cfg : ConfigState) (pull : Except String ProcResult)
    (pyprojectExists : Bool) (pip : Except String ProcResult) : GitUpdateOutcome :=
  match pull with
  | Except.error e =>
    { log := ["Executing: git pull", "Critical Error: " ++ e],
      pipInvoked := false, config := cfg }
  | Except.ok r =>
    let log1 := ["Executing: git pull", r.stdout]
    let log2 := if r.stderr != "" then log1 ++ ["STDERR: " ++ r.stderr] else log1
    if r.returncode != 0 then
      { log := log2 ++ ["Git pull failed."], pipInvoked := false, config := cfg }
    else if pyprojectExists then
      let log3 := log2 ++ ["\nUpdating dependencies (pip install -e .)..."]
      let log4 :=
        match pip with
        | Except.ok pr =>
          (log3 ++ [pr.stdout]) ++
            (if pr.returncode != 0 then ["Pip error: " ++ pr.stderr] else [])
        | Except.error e => log3 ++ ["Pip exception: " ++ e]
      { log := log4 ++ [updateFinishedMsg], pipInvoked := true, config := cfg }
    else
      { log := log2 ++ [updateFinishedMsg], pipInvoked := false, config := cfg }

/-- The string the update callback actually returns to the log textbox. -/
def gitUpdateLogText (o : GitUpdateOutcome) : String := String.intercalate "\n" o.log

theorem getVal_setKey (m : List (String × String)) (k v : String) :
    getVal (setKey m k v) k = some v := by
  induction m with
  | nil => simp [setKey, getVal]
  | cons hd tl ih =>
    obtain ⟨k1, v1⟩ := hd
    by_cases h : k1 = k
    · simp [setKey, getVal, h]
    · simp [setKey, getVal, h, ih]

/-- C1: For every configuration in which the sentinel file
install_path/src/musubi_tuner/gui/gui.py does not exist, create_ui renders the
installer form rather than attempting activation, regardless of the recorded
install_path value (including non-empty paths). -/
theorem C1_sentinel_missing_renders_installer (cfg : ConfigState)
    (isDir : String → Bool) (fsE : String → Bool) (ps : ProcState)
    (ie ce : Option String)
    (h : fsE (sentinelPath ((getVal cfg.mem "install_path").getD "")) = false) :
    (create_ui cfg isDir fsE ps ie ce).1 = RenderedUI.installer := by
  unfold create_ui
  simp [h]

theorem C1_witness :
    ((fun _ => false) (sentinelPath ((getVal
        ([("install_path", "/opt/musubi")] : List (String × String))
        "install_path").getD "")) = false) ∧
    (create_ui ⟨[("install_path", "/opt/musubi")], FileContent.absent⟩
        (fun _ => true) (fun _ => false) ⟨"/", []⟩ none none).1 =
      RenderedUI.installer :=
  ⟨rfl, C1_sentinel_missing_renders_installer _ _ _ _ _ _ rfl⟩

/-- C2: For every invocation of render_musubi_ui, the working directory after
the call equals the working directory before the call, both on success and
when the body raises (import failure or construction failure). -/
theorem C2_cwd_always_restored (ps : ProcState) (mp : String)
    (ie ce : Option String) :
    (render_musubi_ui ps mp ie ce).2.cwd = ps.cwd := by
  simp [render_musubi_ui, apply_ite]

/-- C5: In the current revision, an import failure inside render_musubi_ui is
re-raised to the caller of the activation procedure (it surfaces as the error
result of render_musubi_ui) rather than being swallowed into a diagnostic
panel inside render_musubi_ui. -/
theorem C5_import_error_reraised (ps : ProcState) (mp : String) (m : String)
    (ce : Option String) :
    (render_musubi_ui ps mp (some m) ce).1 =
      Except.error (PyError.importError m) := by
  simp [render_musubi_ui]

/-- C3: For every install action in which the git clone subprocess exits
non-zero or raises, the config (in-memory dict and persisted file) is left
unchanged (save_config is not invoked), the dependency-install step is not
run, and the failure text is emitted to the status output. -/
theorem C3_clone_failure_leaves_config_unchanged (cfg : ConfigState)
    (tp : String) (abspath : String → String) (env : InstallEnv) (e : String)
    (h1 : tp ≠ "")
    (h2 : env.fsExists (joinPath (abspath tp) ".git") = false)
    (h3 : env.cloneResult = Except.error e) :
    (install_musubi cfg tp abspath env).config = cfg ∧
    (install_musubi cfg tp abspath env).pipInvoked = false ∧
    ("Error cloning git repo: " ++ e) ∈ (install_musubi cfg tp abspath env).messages := by
  unfold install_musubi
  simp [h1, h2, h3]

theorem C3_witness :
    ("/x" ≠ "") ∧
    ((InstallEnv.mk (fun _ => false) (Except.error "boom") (Except.ok ())).fsExists
        (joinPath ((fun s => s) "/x") ".git") = false) ∧
    ((InstallEnv.mk (fun _ => false) (Except.error "boom") (Except.ok ())).cloneResult =
        Except.error "boom") ∧
    ((install_musubi ⟨[], FileContent.absent⟩ "/x" (fun s => s)
        (InstallEnv.mk (fun _ => false) (Except.error "boom") (Except.ok ()))).config =
        ⟨[], FileContent.absent⟩ ∧
     (install_musubi ⟨[], FileContent.absent⟩ "/x" (fun s => s)
        (InstallEnv.mk (fun _ => false) (Except.error "boom") (Except.ok ()))).pipInvoked = false ∧
     ("Error cloning git repo: " ++ "boom") ∈
       (install_musubi ⟨[], FileContent.absent⟩ "/x" (fun s => s)
        (InstallEnv.mk (fun _ => false) (Except.error "boom") (Except.ok ()))).messages) :=
  ⟨by decide, rfl, rfl,
    C3_clone_failure_leaves_config_unchanged _ _ _ _ _ (by decide) rfl rfl⟩

/-- C4 counterexample: the round trip does not always yield exactly the
one-key document. If the config file pre-existed with an extra key (loaded
as-is by load_config), save_config dumps the whole dict, so the extra key is
read back alongside install_path. -/
theorem C4_counterexample :
    load_config (save_config ⟨[("install_path", "a"), ("extra", "b")],
        FileContent.doc [("install_path", "a"), ("extra", "b")]⟩ "p").file
        (fun _ => false) "" ≠ [("install_path", "p")] := by
  decide

/-- C4 amended: for every string p and every prior config state, after
save_config p the document read back by load_config maps install_path to
exactly the saved string p (the saved string round-trips unchanged); when the
prior in-memory dict had no keys other than install_path, the read-back
document is exactly the one-key document. -/
theorem C4_saved_path_reads_back (c : ConfigState) (p : String)
    (fsE : String → Bool) (pluginDir : String) :
    getVal (load_config (save_config c p).file fsE pluginDir) "install_path" = some p ∧
    (∀ q, c.mem = [("install_path", q)] →
      load_config (save_config c p).file fsE pluginDir = [("install_path", p)]) := by
  constructor
  · simp only [save_config, load_config]
    exact getVal_setKey c.mem "install_path" p
  · intro q hq
    simp [save_config, load_config, hq, setKey]

theorem C4_amended_witness :
    (getVal (load_config (save_config ⟨[("install_path", "old")], FileContent.absent⟩
        "p").file (fun _ => false) "") "install_path" = some "p" ∧
     (∀ q, ([("install_path", "old")] : List (String × String)) = [("install_path", q)] →
       load_config (save_config ⟨[("install_path", "old")], FileContent.absent⟩
         "p").file (fun _ => false) "" = [("install_path", "p")])) :=
  C4_saved_path_reads_back ⟨[("install_path", "old")], FileContent.absent⟩ "p"
    (fun _ => false) ""

/-- C6: For every git-pull update action in which git pull exits non-zero,
the returned log contains Git pull failed. together with the captured stdout
and (when non-empty) stderr, the pip dependency step is skipped, and the
config is not written. -/
theorem C6_pull_failure_skips_pip (cfg : ConfigState) (r : ProcResult)
    (pyproj : Bool) (pip : Except String ProcResult)
    (h : r.returncode ≠ 0) :
    "Git pull failed." ∈ (do_git_update cfg (Except.ok r) pyproj pip).log ∧
    r.stdout ∈ (do_git_update cfg (Except.ok r) pyproj pip).log ∧
    (r.stderr ≠ "" →
      ("STDERR: " ++ r.stderr) ∈ (do_git_update cfg (Except.ok r) pyproj pip).log) ∧
    (do_git_update cfg (Except.ok r) pyproj pip).pipInvoked = false ∧
    (do_git_update cfg (Except.ok r) pyproj pip).config = cfg := by
  unfold do_git_update
  by_cases hs : r.stderr = "" <;> simp [h, hs]

theorem C6_witness :
    ((ProcResult.mk 1 "out" "conflict").returncode ≠ 0) ∧
    ("Git pull failed." ∈ (do_git_update ⟨[], FileContent.absent⟩
        (Except.ok (ProcResult.mk 1 "out" "conflict")) true
        (Except.ok (ProcResult.mk 0 "" ""))).log ∧
     (ProcResult.mk 1 "out" "conflict").stdout ∈ (do_git_update ⟨[], FileContent.absent⟩
        (Except.ok (ProcResult.mk 1 "out" "conflict")) true
        (Except.ok (ProcResult.mk 0 "" ""))).log ∧
     ((ProcResult.mk 1 "out" "conflict").stderr ≠ "" →
       ("STDERR: " ++ (ProcResult.mk 1 "out" "conflict").stderr) ∈
         (do_git_update ⟨[], FileContent.absent⟩
           (Except.ok (ProcResult.mk 1 "out" "conflict")) true
           (Except.ok (ProcResult.mk 0 "" ""))).log) ∧
     (do_git_update ⟨[], FileContent.absent⟩
        (Except.ok (ProcResult.mk 1 "out" "conflict")) true
        (Except.ok (ProcResult.mk 0 "" ""))).pipInvoked = false ∧
     (do_git_update ⟨[], FileContent.absent⟩
        (Except.ok (ProcResult.mk 1 "out" "conflict")) true
        (Except.ok (ProcResult.mk 0 "" ""))).config = ⟨[], FileContent.absent⟩) :=
  ⟨by decide, C6_pull_failure_skips_pip _ _ _ _ (by decide)⟩

/-- C7: For every install action whose (absolute) target path already contains
a .git directory, the clone step is skipped entirely and the flow proceeds
directly to the dependency-install step (pip runs exactly when pyproject.toml
exists there). -/
theorem C7_existing_git_skips_clone (cfg : ConfigState) (tp : String)
    (abspath : String → String) (env : InstallEnv)
    (h1 : tp ≠ "")
    (h2 : env.fsExists (joinPath (abspath tp) ".git") = true) :
    (install_musubi cfg tp abspath env).cloneInvoked = false ∧
    (install_musubi cfg tp abspath env).pipInvoked =
      env.fsExists (joinPath (abspath tp) "pyproject.toml") := by
  unfold install_musubi
  rw [if_neg h1]
  simp only [h2]
  by_cases hp : env.fsExists (joinPath (abspath tp) "pyproject.toml") = true
  · cases hpip : env.pipResult <;> simp [installDeps, hp, hpip]
  · simp only [Bool.not_eq_true] at hp
    simp [installDeps, hp]

theorem C7_witness :
    ("/y" ≠ "") ∧
    ((InstallEnv.mk (fun _ => true) (Except.ok ()) (Except.ok ())).fsExists
        (joinPath ((fun s => s) "/y") ".git") = true) ∧
    ((install_musubi ⟨[], FileContent.absent⟩ "/y" (fun s => s)
        (InstallEnv.mk (fun _ => true) (Except.ok ()) (Except.ok ()))).cloneInvoked = false ∧
     (install_musubi ⟨[], FileContent.absent⟩ "/y" (fun s => s)
        (InstallEnv.mk (fun _ => true) (Except.ok ()) (Except.ok ()))).pipInvoked =
       (InstallEnv.mk (fun _ => true) (Except.ok ()) (Except.ok ())).fsExists
         (joinPath ((fun s => s) "/y") "pyproject.toml")) :=
  ⟨by decide, rfl, C7_existing_git_skips_clone _ _ _ _ (by decide) rfl⟩

/-- C8 counterexample: when another plugin already holds the GPU (the oracle
any_GPU_process_running is true), on_tab_select does not request the token at
all: acquire_GPU_ressources is not called, only the warning is emitted. This
refutes the claim that every tab activation requests the token. -/
theorem C8_counterexample :
    (on_tab_select true).acquired = false ∧ (on_tab_select true).warned = true := by
  decide

/-- C8 amended: on tab activation the plugin requests the exclusive GPU token
exactly when no other plugin holds it; when another plugin already holds it,
it warns without blocking and proceeds without acquiring; on tab deactivation
it always releases the token. -/
theorem C8_acquire_release_policy (anyRunning : Bool) :
    (on_tab_select anyRunning).warned = anyRunning ∧
    (on_tab_select anyRunning).acquired = !anyRunning ∧
    on_tab_deselect.released = true := by
  cases anyRunning <;> decide

/-- C9: For every install action submitted with an empty target path, the
action emits only the message Please specify a path. and returns: no
subprocess (clone or pip) is launched and the config is not modified. -/
theorem C9_empty_path_rejected (cfg : ConfigState) (abspath : String → String)
    (env : InstallEnv) :
    (install_musubi cfg "" abspath env).messages = ["Please specify a path."] ∧
    (install_musubi cfg "" abspath env).cloneInvoked = false ∧
    (install_musubi cfg "" abspath env).pipInvoked = false ∧
    (install_musubi cfg "" abspath env).config = cfg := by
  simp [install_musubi]

/-- C10: For every content of the config file, including an absent file and
unreadable or syntactically invalid JSON, load_config never raises (it is a
total function) and on a read or parse failure falls back to checking the
default local install directory for the sentinel file, returning the default
directory as install_path if the sentinel exists there and the empty string
otherwise. -/
theorem C10_load_config_fallback (file : FileContent) (fsE : String → Bool)
    (pluginDir : String)
    (h : file = FileContent.absent ∨ file = FileContent.invalid) :
    load_config file fsE pluginDir =
      if fsE (sentinelPath (joinPath pluginDir DEFAULT_INSTALL_DIR_NAME)) then
        [("install_path", joinPath pluginDir DEFAULT_INSTALL_DIR_NAME)]
      else
        [("install_path", "")] := by
  rcases h with h | h <;> subst h <;> rfl

theorem C10_witness :
    (FileContent.absent = FileContent.absent ∨
      FileContent.absent = FileContent.invalid) ∧
    load_config FileContent.absent (fun _ => true) "/plugins/musubi" =
      (if (fun _ => true) (sentinelPath (joinPath "/plugins/musubi"
          DEFAULT_INSTALL_DIR_NAME)) then
        [("install_path", joinPath "/plugins/musubi" DEFAULT_INSTALL_DIR_NAME)]
      else
        [("install_path", "")]) :=
  ⟨Or.inl rfl,
    C10_load_config_fallback FileContent.absent (fun _ => true) "/plugins/musubi"
      (Or.inl rfl)⟩
